import Mathlib

/-!
Verification of `uvspec/logfile.py`: the `Logfile` adapter class that
delegates parsing of quantum-chemistry output files to the external
`cclib` library and stores two result arrays.

The embedding is parametric in the numeric type `α` of the arrays (the
claims never compute with the values, only copy them).  Python's `None`
path sentinel is `Option.none`; Python exceptions are the `Exc` type;
the fatal `error` facility from `uvspec.config.settings` (not part of the
parsed source) is modelled from the spec as a process-terminating outcome.
-/

namespace UVSpec

/-- Python exceptions as seen by this module: `TypeError` is the one class
the code catches; every other exception class is `other`, tagged by name. -/
inductive Exc where
  | typeError
  | other (tag : String)
deriving DecidableEq

/-- The `Logfile` instance state: `self.name`, `self.excited_state_energy`,
`self.oscillator_strength` (the latter two initialized to `[]`). -/
structure Logfile (α : Type) where
  name : Option String
  excited_state_energy : List α
  oscillator_strength : List α
deriving DecidableEq

/-- Constructor `Logfile.__init__(self, filename=None)`: store the filename
and two empty lists.  An omitted argument is `Option.none`. -/
def Logfile.init (α : Type) (filename : Option String) : Logfile α :=
  ⟨filename, [], []⟩

/-- Rendering `Logfile.__repr__`: `'Logfile: %s' % self.name` (Python
renders `None` as the string `"None"`). -/
def Logfile.repr (lf : Logfile α) : String :=
  "Logfile: " ++ (match lf.name with | none => "None" | some s => s)

/-- The generic result object returned by `cclib`'s `parse()`: the two
array attributes this module reads. -/
structure CCData (α : Type) where
  etenergies : List α
  etoscs : List α
deriving DecidableEq

/-- The external world `parse` interacts with: `os.path.exists` on string
paths, and the composite delegate call
`ccopen(name)` / `logger.setLevel` / `.parse()` / attribute reads, which
either yields a result object or raises. -/
structure Env (α : Type) where
  pathExists : String → Bool
  delegate : String → Except Exc (CCData α)

/-- Message of `error('The logfile `%s` could not be found' % self.name)`. -/
def msgMissingFile (path : String) : String :=
  "The logfile `" ++ path ++ "` could not be found"

/-- Message of the `except TypeError` handler's `error(...)` call. -/
def msgRequiresFilename : String :=
  "The `parse()` method requires the `filename` argument in `Logfile`"

/-- Message of the `error(...)` call in the `numpy` import guard. -/
def msgNumpyRequired : String :=
  "The ``numpy`` package is required\n         ``numpy`` is free to download at http://www.numpy.org"

/-- Message of the `error(...)` call in the `cclib` import guard. -/
def msgCclibRequired : String :=
  "The ``cclib`` package is required\n         ``cclib`` is free to download at http://cclib.sf.net"

/-- Result of running the `try` block's body: it either completes normally
(possibly updated state, Python return value `None`), or reaches an
`error(...)` call (fatal, process terminates there). -/
inductive BodyResult (α : Type) where
  | normal (lf : Logfile α) (ret : Option Unit)
  | fatalCall (lf : Logfile α) (msg : String)
deriving DecidableEq

/-- The body of the `try` block in `Logfile.parse`:
`os.path.exists(None)` raises `TypeError`; on an existing path the
delegate runs and on success both `setattr` calls replace the sequences;
on a missing path `error` is called.  An exception carries the instance
state at the raise point (nothing was mutated before any raise). -/
def Logfile.parseBody (env : Env α) (lf : Logfile α) :
    Except (Logfile α × Exc) (BodyResult α) :=
  match lf.name with
  | none => .error (lf, .typeError)
  | some s =>
    if env.pathExists s then
      match env.delegate s with
      | .ok data => .ok (.normal ⟨lf.name, data.etenergies, data.etoscs⟩ none)
      | .error e => .error (lf, e)
    else
      .ok (.fatalCall lf (msgMissingFile s))

/-- Observable outcome of a call to `Logfile.parse`, carrying the instance
state when the call ends: normal completion (Python returns `None`),
process termination via the `error` facility (modelled from the spec:
`error(message)` prints the message and terminates the process), or an
uncaught exception propagating to the caller. -/
inductive ParseOutcome (α : Type) where
  | success (lf : Logfile α) (ret : Option Unit)
  | fatal (lf : Logfile α) (msg : String)
  | raised (lf : Logfile α) (e : Exc)
deriving DecidableEq

/-- Method `Logfile.parse`: run the `try` body; `except TypeError` converts
that one exception class into the fatal `error(...)` call about the missing
`filename`; every other exception propagates. -/
def Logfile.parse (env : Env α) (lf : Logfile α) : ParseOutcome α :=
  match lf.parseBody env with
  | .ok (.normal lf' r) => .success lf' r
  | .ok (.fatalCall lf' m) => .fatal lf' m
  | .error (lf', .typeError) => .fatal lf' msgRequiresFilename
  | .error (lf', e) => .raised lf' e

/-- The instance state at the end of a `parse` call. -/
def ParseOutcome.state : ParseOutcome α → Logfile α
  | .success lf _ => lf
  | .fatal lf _ => lf
  | .raised lf _ => lf

/-- Whether a `parse` call completed normally. -/
def ParseOutcome.isSuccess : ParseOutcome α → Bool
  | .success _ _ => true
  | _ => false

/-- Which libraries the Python runtime can import at module load time. -/
structure ImportEnv where
  numpyAvailable : Bool
  cclibAvailable : Bool
deriving DecidableEq

/-- Modelled from the spec: `uvspec.config.settings.error` (whose source is
not in the parsed tree) prints its message and terminates the process, so
module load stops at the first failing import guard.  `some msg` is the
fatal message of that first failure; `none` means both imports succeeded
and the module loads. -/
def moduleLoad (env : ImportEnv) : Option String :=
  if env.numpyAvailable = false then some msgNumpyRequired
  else if env.cclibAvailable = false then some msgCclibRequired
  else none

/-- C1: for every `Logfile` whose path is set and exists, and every result
object the delegate returns, `parse` ends normally with
`excited_state_energy` set to the result's `etenergies` array and
`oscillator_strength` set to its `etoscs` array, the name unchanged, and
the Python return value `None` (no explicit return value). -/
theorem Logfile.parse_success_populates (α : Type) (env : Env α) (lf : Logfile α)
    (s : String) (data : CCData α)
    (hname : lf.name = some s) (hex : env.pathExists s = true)
    (hdel : env.delegate s = .ok data) :
    lf.parse env = .success ⟨some s, data.etenergies, data.etoscs⟩ none := by
  simp [Logfile.parse, Logfile.parseBody, hname, hex, hdel]

/-- Witness for C1 at a concrete environment and logfile. -/
theorem Logfile.parse_success_populates_witness :
    Logfile.parse (⟨fun _ => true, fun _ => .ok ⟨[7, 9], [3, 4]⟩⟩ : Env Nat)
        ⟨some "a.log", [], []⟩
      = .success ⟨some "a.log", [7, 9], [3, 4]⟩ none :=
  Logfile.parse_success_populates Nat
    ⟨fun _ => true, fun _ => .ok ⟨[7, 9], [3, 4]⟩⟩ ⟨some "a.log", [], []⟩
    "a.log" ⟨[7, 9], [3, 4]⟩ rfl rfl rfl

/-- C3: for a set path that does not exist, `parse` takes the fatal
`error(...)` path with a message containing that exact path, and the
instance state (carried by the `fatal` outcome) is the unchanged `lf`:
the sequences are not populated. -/
theorem Logfile.parse_missing_file_fatal (α : Type) (env : Env α) (lf : Logfile α)
    (s : String) (hname : lf.name = some s) (hex : env.pathExists s = false) :
    lf.parse env = .fatal lf (msgMissingFile s)
    ∧ ∃ pre post, msgMissingFile s = pre ++ s ++ post :=
  ⟨by simp [Logfile.parse, Logfile.parseBody, hname, hex],
   "The logfile `", "` could not be found", rfl⟩

/-- Witness for C3 at a concrete environment and logfile. -/
theorem Logfile.parse_missing_file_fatal_witness :
    Logfile.parse (⟨fun _ => false, fun _ => .error (.other "X")⟩ : Env Nat)
        ⟨some "missing.log", [], []⟩
      = .fatal ⟨some "missing.log", [], []⟩ (msgMissingFile "missing.log")
    ∧ ∃ pre post, msgMissingFile "missing.log" = pre ++ "missing.log" ++ post :=
  Logfile.parse_missing_file_fatal Nat
    ⟨fun _ => false, fun _ => .error (.other "X")⟩ ⟨some "missing.log", [], []⟩
    "missing.log" rfl rfl

/-- C4: with the path left at the unset sentinel, the `try` body raises
`TypeError` (from `os.path.exists(None)`), which `parse` catches and
converts into the fatal configuration-error path whose message states
that `parse` requires a `filename`; the state carried by the outcome is
the unchanged `lf`, so the sequences are not populated. -/
theorem Logfile.parse_unset_name_fatal (α : Type) (env : Env α) (lf : Logfile α)
    (hname : lf.name = none) :
    lf.parseBody env = .error (lf, .typeError)
    ∧ lf.parse env = .fatal lf msgRequiresFilename
    ∧ ∃ pre post, msgRequiresFilename = pre ++ "filename" ++ post :=
  ⟨by simp [Logfile.parseBody, hname],
   by simp [Logfile.parse, Logfile.parseBody, hname],
   "The `parse()` method requires the `", "` argument in `Logfile`", rfl⟩

/-- Witness for C4 at a concrete environment and logfile. -/
theorem Logfile.parse_unset_name_fatal_witness :
    Logfile.parseBody (⟨fun _ => true, fun _ => .ok ⟨[1], [2]⟩⟩ : Env Nat)
        ⟨none, [], []⟩
      = .error (⟨none, [], []⟩, .typeError)
    ∧ Logfile.parse (⟨fun _ => true, fun _ => .ok ⟨[1], [2]⟩⟩ : Env Nat)
        ⟨none, [], []⟩
      = .fatal ⟨none, [], []⟩ msgRequiresFilename
    ∧ ∃ pre post, msgRequiresFilename = pre ++ "filename" ++ post :=
  Logfile.parse_unset_name_fatal Nat
    ⟨fun _ => true, fun _ => .ok ⟨[1], [2]⟩⟩ ⟨none, [], []⟩ rfl

/-- C7: construction always succeeds; the stored name equals the given
argument (the unset sentinel `none` when omitted) and both sequences are
empty. -/
theorem Logfile.init_spec (α : Type) (fn : Option String) :
    (Logfile.init α fn).name = fn
    ∧ (Logfile.init α fn).excited_state_energy = []
    ∧ (Logfile.init α fn).oscillator_strength = [] :=
  ⟨rfl, rfl, rfl⟩

/-- C8: the textual representation of a `Logfile` contains its stored
path as a substring. -/
theorem Logfile.repr_contains_path (α : Type) (lf : Logfile α) (s : String)
    (hname : lf.name = some s) :
    ∃ pre post, lf.repr = pre ++ s ++ post := by
  refine ⟨"Logfile: ", "", ?_⟩
  simp [Logfile.repr, hname, String.append_empty]

/-- Witness for C8 at a concrete logfile. -/
theorem Logfile.repr_contains_path_witness :
    ∃ pre post, (⟨some "out.log", [], []⟩ : Logfile Nat).repr = pre ++ "out.log" ++ post :=
  Logfile.repr_contains_path Nat ⟨some "out.log", [], []⟩ "out.log" rfl

/-- C2: after a successful `parse` whose delegate returns equal-length
arrays, the two sequences have equal length; at construction both are
empty, so their lengths are also equal there. -/
theorem Logfile.parse_length_invariant (α : Type) (env : Env α) (lf lf' : Logfile α)
    (r : Option Unit) (hsucc : lf.parse env = .success lf' r)
    (hlen : ∀ s data, env.delegate s = .ok data →
        data.etenergies.length = data.etoscs.length) :
    lf'.excited_state_energy.length = lf'.oscillator_strength.length
    ∧ ∀ fn : Option String,
        (Logfile.init α fn).excited_state_energy.length
          = (Logfile.init α fn).oscillator_strength.length := by
  refine ⟨?_, fun fn => rfl⟩
  cases hn : lf.name with
  | none => simp [Logfile.parse, Logfile.parseBody, hn] at hsucc
  | some s =>
    cases hex : env.pathExists s with
    | false => simp [Logfile.parse, Logfile.parseBody, hn, hex] at hsucc
    | true =>
      cases hd : env.delegate s with
      | error e =>
        cases e <;> simp [Logfile.parse, Logfile.parseBody, hn, hex, hd] at hsucc
      | ok data =>
        simp [Logfile.parse, Logfile.parseBody, hn, hex, hd] at hsucc
        obtain ⟨h1, -⟩ := hsucc
        subst h1
        exact hlen s data hd

/-- Witness for C2 at a concrete environment and logfile. -/
theorem Logfile.parse_length_invariant_witness :
    (⟨some "w.log", [7, 9], [3, 4]⟩ : Logfile Nat).excited_state_energy.length
      = (⟨some "w.log", [7, 9], [3, 4]⟩ : Logfile Nat).oscillator_strength.length
    ∧ ∀ fn : Option String,
        (Logfile.init Nat fn).excited_state_energy.length
          = (Logfile.init Nat fn).oscillator_strength.length :=
  Logfile.parse_length_invariant Nat
    ⟨fun _ => true, fun _ => .ok ⟨[7, 9], [3, 4]⟩⟩ ⟨some "w.log", [], []⟩
    ⟨some "w.log", [7, 9], [3, 4]⟩ none rfl (fun _ data h => by cases h; rfl)

/-- C5 counterexample: the claim says no delegate exception is caught or
converted, but the `except TypeError` clause wraps the delegate calls too:
a `TypeError` raised by the delegate on an existing path is caught and
converted into the missing-filename fatal message instead of propagating. -/
theorem Logfile.delegate_typeError_caught :
    Logfile.parse (⟨fun _ => true, fun _ => .error .typeError⟩ : Env Nat)
        ⟨some "b.log", [], []⟩
      = .fatal ⟨some "b.log", [], []⟩ msgRequiresFilename
    ∧ Logfile.parse (⟨fun _ => true, fun _ => .error .typeError⟩ : Env Nat)
        ⟨some "b.log", [], []⟩
      ≠ .raised ⟨some "b.log", [], []⟩ .typeError :=
  ⟨rfl, by decide⟩

/-- C5 amended: a delegate failure on an existing path propagates
unmodified unless it is a `TypeError`, which the module catches and
converts into the missing-filename fatal path. -/
theorem Logfile.parse_delegate_error_handling (α : Type) (env : Env α)
    (lf : Logfile α) (s : String) (e : Exc)
    (hname : lf.name = some s) (hex : env.pathExists s = true)
    (hdel : env.delegate s = .error e) :
    lf.parse env = if e = .typeError then .fatal lf msgRequiresFilename
                   else .raised lf e := by
  cases e <;> simp [Logfile.parse, Logfile.parseBody, hname, hex, hdel]

/-- Witness for the amended C5 at a concrete non-`TypeError` delegate
failure. -/
theorem Logfile.parse_delegate_error_handling_witness :
    Logfile.parse (⟨fun _ => true, fun _ => .error (.other "ValueError")⟩ : Env Nat)
        ⟨some "c.log", [], []⟩
      = if (Exc.other "ValueError") = Exc.typeError
        then .fatal ⟨some "c.log", [], []⟩ msgRequiresFilename
        else .raised ⟨some "c.log", [], []⟩ (.other "ValueError") :=
  Logfile.parse_delegate_error_handling Nat
    ⟨fun _ => true, fun _ => .error (.other "ValueError")⟩ ⟨some "c.log", [], []⟩
    "c.log" (.other "ValueError") rfl rfl rfl

/-- C6: with a fixed environment (stable file, deterministic delegate), a
second `parse` after a successful one succeeds again with exactly the same
instance contents — there is no re-parse guard, the delegate runs again
and overwrites both sequences with the same arrays. -/
theorem Logfile.parse_idempotent (α : Type) (env : Env α) (lf lf' : Logfile α)
    (r : Option Unit) (h : lf.parse env = .success lf' r) :
    lf'.parse env = .success lf' r := by
  cases hn : lf.name with
  | none => simp [Logfile.parse, Logfile.parseBody, hn] at h
  | some s =>
    cases hex : env.pathExists s with
    | false => simp [Logfile.parse, Logfile.parseBody, hn, hex] at h
    | true =>
      cases hd : env.delegate s with
      | error e =>
        cases e <;> simp [Logfile.parse, Logfile.parseBody, hn, hex, hd] at h
      | ok data =>
        simp [Logfile.parse, Logfile.parseBody, hn, hex, hd] at h
        obtain ⟨h1, h2⟩ := h
        subst h1
        subst h2
        simp [Logfile.parse, Logfile.parseBody, hex, hd]

/-- Witness for C6: the second call at a concrete environment. -/
theorem Logfile.parse_idempotent_witness :
    Logfile.parse (⟨fun _ => true, fun _ => .ok ⟨[5], [6]⟩⟩ : Env Nat)
        ⟨some "twice.log", [5], [6]⟩
      = .success ⟨some "twice.log", [5], [6]⟩ none :=
  Logfile.parse_idempotent Nat ⟨fun _ => true, fun _ => .ok ⟨[5], [6]⟩⟩
    ⟨some "twice.log", [], []⟩ ⟨some "twice.log", [5], [6]⟩ none rfl

/-- C9: each missing library at module load time yields its own fatal
message; the messages are distinct, and each names its library and the
address where it can be obtained. -/
theorem moduleLoad_distinct_messages :
    moduleLoad ⟨false, true⟩ = some msgNumpyRequired
    ∧ moduleLoad ⟨false, false⟩ = some msgNumpyRequired
    ∧ moduleLoad ⟨true, false⟩ = some msgCclibRequired
    ∧ moduleLoad ⟨true, true⟩ = none
    ∧ msgNumpyRequired ≠ msgCclibRequired
    ∧ (∃ pre post, msgNumpyRequired = pre ++ "numpy" ++ post)
    ∧ (∃ pre post, msgNumpyRequired = pre ++ "http://www.numpy.org" ++ post)
    ∧ (∃ pre post, msgCclibRequired = pre ++ "cclib" ++ post)
    ∧ (∃ pre post, msgCclibRequired = pre ++ "http://cclib.sf.net" ++ post) :=
  ⟨rfl, rfl, rfl, rfl, by decide,
   ⟨"The ``",
    "`` package is required\n         ``numpy`` is free to download at http://www.numpy.org",
    by decide⟩,
   ⟨"The ``numpy`` package is required\n         ``numpy`` is free to download at ",
    "", by decide⟩,
   ⟨"The ``",
    "`` package is required\n         ``cclib`` is free to download at http://cclib.sf.net",
    by decide⟩,
   ⟨"The ``cclib`` package is required\n         ``cclib`` is free to download at ",
    "", by decide⟩⟩

/-- C10: frame condition of `parse` — on every non-successful outcome
(unset path, missing file, or any raise) the instance state is exactly the
pre-call state, and on every outcome, success included, the name field is
unchanged. -/
theorem Logfile.parse_frame (α : Type) (env : Env α) (lf : Logfile α) :
    ((lf.parse env).isSuccess = false → (lf.parse env).state = lf)
    ∧ (lf.parse env).state.name = lf.name := by
  cases hn : lf.name with
  | none =>
    simp [Logfile.parse, Logfile.parseBody, hn, ParseOutcome.state,
          ParseOutcome.isSuccess]
  | some s =>
    cases hex : env.pathExists s with
    | false =>
      simp [Logfile.parse, Logfile.parseBody, hn, hex, ParseOutcome.state,
            ParseOutcome.isSuccess]
    | true =>
      cases hd : env.delegate s with
      | ok data =>
        simp [Logfile.parse, Logfile.parseBody, hn, hex, hd, ParseOutcome.state,
              ParseOutcome.isSuccess]
      | error e =>
        cases e <;>
          simp [Logfile.parse, Logfile.parseBody, hn, hex, hd, ParseOutcome.state,
                ParseOutcome.isSuccess]

/-- Witness for C10 at a concrete fatal path (missing file). -/
theorem Logfile.parse_frame_witness :
    (Logfile.parse (⟨fun _ => false, fun _ => .error .typeError⟩ : Env Nat)
        ⟨some "gone.log", [], []⟩).isSuccess = false
    ∧ (Logfile.parse (⟨fun _ => false, fun _ => .error .typeError⟩ : Env Nat)
        ⟨some "gone.log", [], []⟩).state = ⟨some "gone.log", [], []⟩
    ∧ (Logfile.parse (⟨fun _ => false, fun _ => .error .typeError⟩ : Env Nat)
        ⟨some "gone.log", [], []⟩).state.name
      = (⟨some "gone.log", [], []⟩ : Logfile Nat).name :=
  ⟨rfl,
   (Logfile.parse_frame Nat ⟨fun _ => false, fun _ => .error .typeError⟩
      ⟨some "gone.log", [], []⟩).1 rfl,
   (Logfile.parse_frame Nat ⟨fun _ => false, fun _ => .error .typeError⟩
      ⟨some "gone.log", [], []⟩).2⟩

end UVSpec
